import Mathlib

/-!
Verification development for the plant-care dashboard in `app.py`
(repository policejoker/ai-green-finger).

The embedding models the three responsibilities of the program:

* the history log (`save_to_csv` / `load_history`, a flat CSV file written
  with pandas `to_csv` / read back with pandas `read_csv`),
* the broadcast notifier (`send_line_broadcast`),
* the button handler (the `if ask_ai_btn:` block), which runs the alert
  cooldown check, the inference call, and the history append in order.

Machine-level conventions: the CSV file content is a `List Char` (UTF-8
encode/decode is a bijection on text, so character level is faithful; the
`utf-8-sig` byte-order mark is the character U+FEFF).  `time.time()` values
are modelled as rationals, which preserves the ordering comparisons the
code performs.  Fallible external calls (HTTP POST, inference) are inputs
of the model describing how the environment responds.
-/

namespace GreenFinger

/-! ### UI side effects (streamlit calls made by the code) -/

/-- A user-visible streamlit effect: `st.warning`, `st.toast`, `st.error`,
`st.success`. -/
inductive UIEvent where
  | warning (msg : String)
  | toast (msg : String)
  | errorMsg (msg : String)
  | success (msg : String)
  deriving DecidableEq, Repr

/-! ### CSV writing (pandas `DataFrame.to_csv`)

`to_csv` uses the `csv` module's QUOTE_MINIMAL discipline: a field is
quoted iff it contains the delimiter, the quote character, or a line break;
quote characters inside a quoted field are doubled.  Rows are terminated
with a single newline (Linux `os.linesep`). -/

/-- Characters that force QUOTE_MINIMAL quoting of a CSV field: the
delimiter, the quote character, and the characters of the line terminator
(`to_csv` writes with `os.linesep`, a single newline on Linux; a bare
carriage return is therefore written unquoted, which is why the record
safety predicate below excludes it from text fields). -/
def isCSVSpecial (c : Char) : Bool :=
  c == ',' || c == '"' || c == '\n'

/-- Double every quote character (the `doublequote=True` escape). -/
def escapeQuotes : List Char → List Char
  | [] => []
  | c :: cs => if c == '"' then '"' :: '"' :: escapeQuotes cs else c :: escapeQuotes cs

/-- Serialize one field with minimal quoting. -/
def encodeField (f : List Char) : List Char :=
  if f.any isCSVSpecial then '"' :: (escapeQuotes f ++ ['"']) else f

/-- Serialize one row (comma separated fields, newline terminated). -/
def encodeRow : List (List Char) → List Char
  | [] => ['\n']
  | [f] => encodeField f ++ ['\n']
  | f :: fs => encodeField f ++ ',' :: encodeRow fs

/-! ### CSV reading (the tokenizer of pandas `read_csv`)

Modelled as a character-by-character state machine: outside quotes a comma
ends a field and a newline ends a row; a quote at field start opens a
quoted field, inside which comma and newline are data and a doubled quote
is a literal quote.  A stray character after a closing quote is a parse
error (`bad`). -/

/-- Tokenizer mode. -/
inductive CSVMode where
  | startField | unquoted | quoted | afterQuote
  deriving DecidableEq, Repr

/-- Tokenizer state: completed rows, completed fields of the current row,
characters of the current field, mode, and an error flag. -/
structure CSVState where
  rows : List (List (List Char))
  cur : List (List Char)
  field : List Char
  mode : CSVMode
  bad : Bool
  deriving DecidableEq, Repr

def csvInit : CSVState := ⟨[], [], [], .startField, false⟩

def csvStep (s : CSVState) (c : Char) : CSVState :=
  if s.bad then s else
  match s.mode with
  | .startField =>
    if c == '"' then ⟨s.rows, s.cur, s.field, .quoted, false⟩
    else if c == ',' then ⟨s.rows, s.cur ++ [s.field], [], .startField, false⟩
    else if c == '\n' then ⟨s.rows ++ [s.cur ++ [s.field]], [], [], .startField, false⟩
    else ⟨s.rows, s.cur, s.field ++ [c], .unquoted, false⟩
  | .unquoted =>
    if c == ',' then ⟨s.rows, s.cur ++ [s.field], [], .startField, false⟩
    else if c == '\n' then ⟨s.rows ++ [s.cur ++ [s.field]], [], [], .startField, false⟩
    else ⟨s.rows, s.cur, s.field ++ [c], .unquoted, false⟩
  | .quoted =>
    if c == '"' then ⟨s.rows, s.cur, s.field, .afterQuote, false⟩
    else ⟨s.rows, s.cur, s.field ++ [c], .quoted, false⟩
  | .afterQuote =>
    if c == '"' then ⟨s.rows, s.cur, s.field ++ [c], .quoted, false⟩
    else if c == ',' then ⟨s.rows, s.cur ++ [s.field], [], .startField, false⟩
    else if c == '\n' then ⟨s.rows ++ [s.cur ++ [s.field]], [], [], .startField, false⟩
    else ⟨s.rows, s.cur, s.field, .afterQuote, true⟩

/-- Finish tokenizing: an unterminated quoted field or a stray character is
an error; a final line without trailing newline still yields a row. -/
def csvFinal (s : CSVState) : Option (List (List (List Char))) :=
  if s.bad then none
  else match s.mode with
  | .quoted => none
  | .startField =>
      if s.cur.isEmpty && s.field.isEmpty then some s.rows
      else some (s.rows ++ [s.cur ++ [s.field]])
  | .unquoted => some (s.rows ++ [s.cur ++ [s.field]])
  | .afterQuote => some (s.rows ++ [s.cur ++ [s.field]])

/-- Tokenize a whole file into rows of raw fields. -/
def parseCSV (l : List Char) : Option (List (List (List Char))) :=
  csvFinal (l.foldl csvStep csvInit)

/-! ### pandas value conversion (`read_csv` NA filtering and dtype inference)

`read_csv` with default options replaces every cell equal to one of the
default missing-value tokens by NaN, and infers a dtype per column: a
column whose cells are all integer literals becomes int64, a column whose
cells are all numeric or NA becomes float64, a column of boolean words
becomes bool, and anything else stays as strings (with NA cells still
replaced by NaN). -/

/-- The default `na_values` token set of pandas `read_csv`. -/
def pandasNaTokens : List String :=
  ["", "#N/A", "#N/A N/A", "#NA", "-1.#IND", "-1.#QNAN", "-NaN", "-nan",
   "1.#IND", "1.#QNAN", "<NA>", "N/A", "NA", "NULL", "NaN", "None",
   "n/a", "nan", "null"]

def isNaToken (s : String) : Bool := pandasNaTokens.contains s

/-- Integer literal: optional sign followed by one or more digits. -/
def isIntToken (s : String) : Bool :=
  match s.data with
  | [] => false
  | c :: cs =>
    let ds := if c == '+' || c == '-' then cs else c :: cs
    !ds.isEmpty && ds.all Char.isDigit

/-- Leading decimal digits of a list: the remainder after them, and whether
there was at least one. -/
def spanDigits : List Char → List Char × Bool
  | [] => ([], false)
  | c :: cs =>
    if c.isDigit then ((spanDigits cs).1, true) else (c :: cs, false)

/-- Exponent suffix: empty, or `e`/`E` with optional sign and digits. -/
def signedDigits (l : List Char) : Bool :=
  match l with
  | '+' :: r => !r.isEmpty && r.all Char.isDigit
  | '-' :: r => !r.isEmpty && r.all Char.isDigit
  | r => !r.isEmpty && r.all Char.isDigit

def expSuffix : List Char → Bool
  | [] => true
  | 'e' :: r => signedDigits r
  | 'E' :: r => signedDigits r
  | _ => false

/-- Float literal body after an optional sign (approximates the grammar the
pandas C tokenizer accepts: digits with optional fraction and exponent, or
an infinity word). -/
def isFloatBody (l : List Char) : Bool :=
  if l = "inf".data ∨ l = "Inf".data ∨ l = "INF".data ∨
     l = "infinity".data ∨ l = "Infinity".data then true
  else
    let p := spanDigits l
    match p.1 with
    | [] => p.2
    | '.' :: r2 =>
      let q := spanDigits r2
      (p.2 || q.2) && expSuffix q.1
    | r1 => p.2 && expSuffix r1

def isFloatToken (s : String) : Bool :=
  match s.data with
  | '+' :: r => isFloatBody r
  | '-' :: r => isFloatBody r
  | r => isFloatBody r

/-- Boolean words recognized by the pandas C tokenizer. -/
def isBoolToken (s : String) : Bool :=
  s == "True" || s == "TRUE" || s == "False" || s == "FALSE"

def isTrueToken (s : String) : Bool := s == "True" || s == "TRUE"

/-- Numeric value of a digit string. -/
def digitsVal (l : List Char) : Int :=
  l.foldl (fun a c => a * 10 + (Int.ofNat (c.toNat - 48))) 0

/-- Integer value of an integer literal. -/
def intValue (s : String) : Int :=
  match s.data with
  | '-' :: cs => - digitsVal cs
  | '+' :: cs => digitsVal cs
  | cs => digitsVal cs

/-- A value in the loaded DataFrame.  `float` keeps the raw literal the
IEEE value was parsed from; no claim depends on float arithmetic so it is
left uninterpreted. -/
inductive Cell where
  | nan
  | int (n : Int)
  | float (raw : String)
  | bool (b : Bool)
  | str (s : String)
  deriving DecidableEq, Repr

/-- Convert one cell given the raw strings of its whole column, mirroring
the per-column dtype inference of `read_csv` (int64, then float64, then
bool, else object with NA cells replaced by NaN). -/
def convertCell (col : List String) (s : String) : Cell :=
  if col.all (fun t => isIntToken t) then .int (intValue s)
  else if col.all (fun t => isNaToken t || isFloatToken t || isIntToken t) then
    (if isNaToken s then .nan else .float s)
  else if col.all (fun t => isBoolToken t) then .bool (isTrueToken s)
  else if isNaToken s then .nan else .str s

/-- A loaded DataFrame: column names and rows of cells. -/
structure Frame where
  cols : List String
  rows : List (List Cell)
  deriving DecidableEq, Repr

/-- The `utf-8-sig` byte-order mark, decoded as the character U+FEFF. -/
def bomChar : Char := Char.ofNat 65279

/-- `read_csv` ignores a byte-order mark at the very start of the file. -/
def stripBOM (l : List Char) : List Char :=
  match l with
  | c :: cs => if c == bomChar then cs else c :: cs
  | [] => []

/-- pandas `read_csv` on file contents: tokenize, take the first row as
header, skip blank lines, require rectangular data (rows produced by
`save_to_csv` always have exactly the header's four fields), and apply the
per-column value conversion.  `none` models a raised exception
(parse error or empty file). -/
def read_csv (contents : List Char) : Option Frame :=
  match parseCSV (stripBOM contents) with
  | none => none
  | some [] => none
  | some (hdr :: rawRows) =>
    let dataRows := (rawRows.filter (fun r => r ≠ [[]])).map (fun r => r.map String.mk)
    let hdrS := hdr.map String.mk
    if dataRows.all (fun r => r.length == hdrS.length) then
      some ⟨hdrS, dataRows.map (fun r =>
        (List.range hdrS.length).map (fun j =>
          convertCell (dataRows.map (fun rr => rr.getD j "")) (r.getD j "")))⟩
    else none

/-! ### The history log of `app.py` (`save_to_csv` / `load_history`) -/

/-- The column names of `plant_history.csv`, in the order `save_to_csv`
builds its single-row DataFrame. -/
def dbColumns : List String := ["日期時間", "濕度(%)", "溫度(°C)", "AI 診斷與建議"]

/-- The header line written on first creation of the store. -/
def csvHeaderLine : List Char := encodeRow (dbColumns.map String.data)

/-- `save_to_csv(humidity, temperature, ai_response)`: one row
{timestamp, humidity, temperature, text}.  If the file does not exist it is
created with `to_csv(index=False, encoding="utf-8-sig")`: a byte-order
mark, the header row, then the data row; otherwise the row is appended
with `mode='a', header=False`.  (Python's text IO suppresses the
`utf-8-sig` mark when appending at a nonzero position, so appends add no
mark.)  `now` is the `datetime.now().strftime("%Y-%m-%d %H:%M:%S")`
string, supplied here as the clock input. -/
def save_to_csv (file : Option (List Char)) (now : String)
    (humidity temperature : Nat) (ai : String) : Option (List Char) :=
  let row := encodeRow [now.data, (toString humidity).data,
                        (toString temperature).data, ai.data]
  match file with
  | none => some (bomChar :: (csvHeaderLine ++ row))
  | some c => some (c ++ row)

/-- Result of `load_history()`: the Python `None` when the file does not
exist, a DataFrame otherwise, or a raised exception from `read_csv`. -/
inductive LoadResult where
  | noFile
  | frame (f : Frame)
  | raised
  deriving DecidableEq, Repr

/-- `load_history()`: returns `None` when `plant_history.csv` does not
exist, else `pd.read_csv(DB_FILE)`. -/
def load_history (file : Option (List Char)) : LoadResult :=
  match file with
  | none => .noFile
  | some c =>
    match read_csv c with
    | none => .raised
    | some f => .frame f

/-- The record sequence an observer gets from `load_history`: the missing
file is displayed as no records (the caller skips the table when the
result is `None`), a frame gives its rows, and a raised exception gives no
sequence at all. -/
def loadedRecords : LoadResult → Option (List (List Cell))
  | .noFile => some []
  | .frame f => some f.rows
  | .raised => none

/-- The history table the main page renders:
`df.sort_index(ascending=False).head(5)`.  After a fresh `read_csv` the
index is the range 0..n-1, so descending index sort is row reversal and
`head(5)` keeps the first five of the reversed rows. -/
def displayedTable (file : Option (List Char)) : Option (List (List Cell)) :=
  match load_history file with
  | .frame f => some ((f.rows.reverse).take 5)
  | _ => none

/-! ### Records as appended by the application -/

/-- One history record as `save_to_csv` serializes it. -/
structure PlantRecord where
  timestamp : String
  humidity : Nat
  temperature : Nat
  diagnosisText : String
  deriving DecidableEq, Repr

def saveRecord (file : Option (List Char)) (r : PlantRecord) : Option (List Char) :=
  save_to_csv file r.timestamp r.humidity r.temperature r.diagnosisText

/-- The store produced by appending the records one by one, starting from
no file. -/
def storeOf (recs : List PlantRecord) : Option (List Char) :=
  recs.foldl saveRecord none

/-- The four raw fields `save_to_csv` serializes for a record. -/
def rowFields (r : PlantRecord) : List (List Char) :=
  [r.timestamp.data, (toString r.humidity).data,
   (toString r.temperature).data, r.diagnosisText.data]

/-- The serialized CSV line of a record. -/
def rowText (r : PlantRecord) : List Char := encodeRow (rowFields r)

/-- The four fields of a record as strings, as the tokenizer returns them. -/
def strFields (r : PlantRecord) : List String :=
  [r.timestamp, toString r.humidity, toString r.temperature, r.diagnosisText]

/-- The cells a faithfully loaded record should produce. -/
def toCells (r : PlantRecord) : List Cell :=
  [.str r.timestamp, .int (Int.ofNat r.humidity), .int (Int.ofNat r.temperature),
   .str r.diagnosisText]

/-- A text field the loader keeps verbatim: not an NA token, not an
integer, float or boolean literal (otherwise `read_csv` NA filtering or
dtype inference rewrites it). -/
def plainText (s : String) : Bool :=
  !(isNaToken s) && !(isIntToken s) && !(isFloatToken s) && !(isBoolToken s)

/-- A record inside the application's input ranges whose text fields the
loader keeps verbatim: slider ranges are 0–100 for humidity and 10–40 for
temperature, the timestamp is a `strftime` string and the diagnosis text
is free text that is not an NA/numeric/boolean literal and contains no
bare carriage return (which the Linux writer would leave unquoted and the
reader would take as a line break). -/
def safeRecord (r : PlantRecord) : Bool :=
  plainText r.timestamp && plainText r.diagnosisText &&
  !(r.timestamp.data.contains '\r') && !(r.diagnosisText.data.contains '\r') &&
  decide (r.humidity ≤ 100) && decide (10 ≤ r.temperature) &&
  decide (r.temperature ≤ 40)

/-! ### The broadcast notifier (`send_line_broadcast`) -/

/-- One element of the `messages` JSON array sent to the gateway. -/
inductive LineMessage where
  | text (s : String)
  | sticker (packageId stickerId : String)
  deriving DecidableEq, Repr

/-- The HTTP POST `send_line_broadcast` issues. -/
structure LineRequest where
  url : String
  authToken : String
  messages : List LineMessage
  deriving DecidableEq, Repr

/-- How the environment answers `requests.post`: a response with a status
code and body text, or a raised transport exception. -/
inductive PostResult where
  | resp (status : Nat) (body : String)
  | raises (e : String)
  deriving DecidableEq, Repr

/-- Observable effects of one `send_line_broadcast` call: the request that
went out (if any) and the streamlit messages shown. -/
structure SendEffects where
  request : Option LineRequest
  events : List UIEvent
  deriving DecidableEq, Repr

/-- `send_line_broadcast(msg, sticker)`.  The second component is the value
the caller receives: `Except.ok ()` models the Python `None` return, and an
`Except.error` would model an exception escaping to the caller (the
`try/except` around `requests.post` means no branch produces one). -/
def send_line_broadcast (token : Option String) (post : PostResult)
    (msg : String) (sticker : Bool) : SendEffects × Except String Unit :=
  match token with
  | none =>
    (⟨none, [.warning "⚠️ 未設定 LINE Access Token，無法發送通知。"]⟩, .ok ())
  | some tok =>
    let messages := [LineMessage.text msg] ++
      (if sticker then [LineMessage.sticker "11537" "52002758"] else [])
    let req : LineRequest :=
      ⟨"https://api.line.me/v2/bot/message/broadcast", tok, messages⟩
    match post with
    | .resp status body =>
      if status = 200 then
        (⟨some req, [.toast "已透過官方帳號廣播警示！📢"]⟩, .ok ())
      else
        (⟨some req, [.errorMsg ("LINE 傳送失敗: " ++ toString status ++ " - " ++ body)]⟩,
         .ok ())
    | .raises e =>
      (⟨some req, [.errorMsg ("連線錯誤: " ++ e)]⟩, .ok ())

/-- The alert text built at line 144 of `app.py`. -/
def lineWarningMsg (humidity : Nat) : String :=
  "⚠️ 救命啊！我快乾死了！\n目前濕度：" ++ toString humidity ++ "%\n快點來澆水！"

/-- The cooldown notice shown when an alert is suppressed. -/
def cooldownNotice : String := "⚠️ 濕度過低！(訊息冷卻中，避免洗頻扣額度)"

/-! ### The button handler (the `if ask_ai_btn:` block) -/

/-- One entry of `st.session_state.history`. -/
structure ChatMsg where
  role : String
  msg : String
  deriving DecidableEq, Repr

/-- The process-wide mutable session state the handler reads and writes:
`st.session_state.history` and `st.session_state.last_alert_time`
(epoch seconds, initialized to 0). -/
structure SessionState where
  history : List ChatMsg
  last_alert_time : ℚ
  deriving DecidableEq, Repr

/-- The environment of one button press: the current `time.time()`, the
`datetime.now()` string used by `save_to_csv`, the gateway token, how the
gateway would answer a POST, how the inference call answers
(`.ok text` or a raised exception), and whether a photo was uploaded. -/
structure HandlerEnv where
  now : ℚ
  nowStr : String
  token : Option String
  post : PostResult
  inference : Except String String
  image : Bool
  deriving Repr

/-- Which of the two prompts lines 153–169 build (their literal text has no
bearing on any claim and is elided). -/
inductive PromptKind where
  | withImage | withoutImage
  deriving DecidableEq, Repr

/-- Effects of the alert cooldown block (lines 139–150): the new
`last_alert_time`, the streamlit messages, the outbound request if any,
and whether `send_line_broadcast` was called at all. -/
structure AlertEffects where
  last_alert_time : ℚ
  events : List UIEvent
  request : Option LineRequest
  send_called : Bool
  deriving DecidableEq, Repr

/-- Lines 139–150 of `app.py`: if humidity < 20 and more than 60 seconds
passed since the last alert, broadcast the warning with a sticker and set
`last_alert_time = current_time` (unconditionally, whatever the send did);
if within the 60-second window, show the cooldown notice; if humidity is
not below 20, do nothing. -/
def alertBlock (humidity : Nat) (last : ℚ) (env : HandlerEnv) : AlertEffects :=
  if humidity < 20 then
    if env.now - last > 60 then
      let sent := send_line_broadcast env.token env.post (lineWarningMsg humidity) true
      ⟨env.now, sent.1.events, sent.1.request, true⟩
    else ⟨last, [.warning cooldownNotice], none, false⟩
  else ⟨last, [], none, false⟩

/-- Everything one button press produces: the new session state, the new
file contents, the streamlit messages in order, the outbound broadcast
request if any, whether the broadcast function was called, and which
prompt was built. -/
structure HandlerOut where
  state : SessionState
  file : Option (List Char)
  events : List UIEvent
  request : Option LineRequest
  send_called : Bool
  prompt : PromptKind
  deriving DecidableEq, Repr

/-- The `if ask_ai_btn:` block (lines 133–184): run the alert cooldown
block, build the prompt, call `generate_content`; on success append the
response to the chat history, append a row via `save_to_csv` and show the
success message; a raised inference exception jumps to the `except`
handler, which only shows the error — but state already mutated by the
alert block stays mutated. -/
def handler (humidity temperature : Nat) (st : SessionState)
    (file : Option (List Char)) (env : HandlerEnv) : HandlerOut :=
  let a := alertBlock humidity st.last_alert_time env
  let pk := if env.image then PromptKind.withImage else PromptKind.withoutImage
  match env.inference with
  | .error e =>
    ⟨⟨st.history, a.last_alert_time⟩, file,
     a.events ++ [.errorMsg ("發生錯誤: " ++ e)], a.request, a.send_called, pk⟩
  | .ok text =>
    ⟨⟨st.history ++ [⟨"ai", text⟩], a.last_alert_time⟩,
     save_to_csv file env.nowStr humidity temperature text,
     a.events ++ [.success "✅ 診斷完成！資料已紀錄。"], a.request, a.send_called, pk⟩

/-- The specification's `AlertOutcome` classification. -/
inductive AlertOutcome where
  | notTriggered
  | sentWithSticker
  | suppressedByCooldown
  | sendFailed (reason : String)
  deriving DecidableEq, Repr

/-- The spec's `maybeAlert` outcome read off the code's branches: not
triggered when humidity is at least 20, suppressed inside the 60-second
window, and otherwise sent or failed according to how the gateway call
went (missing token, non-200 status or transport exception are the
failures). -/
def maybeAlertOutcome (humidity : Nat) (last : ℚ) (env : HandlerEnv) : AlertOutcome :=
  if humidity < 20 then
    if env.now - last > 60 then
      match env.token with
      | none => .sendFailed "missing LINE access token"
      | some _ =>
        match env.post with
        | .resp status body =>
          if status = 200 then .sentWithSticker
          else .sendFailed ("LINE 傳送失敗: " ++ toString status ++ " - " ++ body)
        | .raises e => .sendFailed ("連線錯誤: " ++ e)
    else .suppressedByCooldown
  else .notTriggered

/-! ## Lemmas: the tokenizer inverts the writer -/

theorem notSpecial_parts (c : Char) (h : isCSVSpecial c = false) :
    (c == ',') = false ∧ (c == '"') = false ∧ (c == '\n') = false := by
  simp only [isCSVSpecial, Bool.or_eq_false_iff] at h
  exact ⟨h.1.1, h.1.2, h.2⟩

theorem any_special_false (f : List Char) (hq : ¬ f.any isCSVSpecial = true) :
    ∀ c ∈ f, isCSVSpecial c = false := by
  intro x hx
  by_contra hcon
  rw [Bool.not_eq_false] at hcon
  exact hq (List.any_eq_true.mpr ⟨x, hx, hcon⟩)

theorem escapeQuotes_foldl (f : List Char) :
    ∀ (rows : List (List (List Char))) (cur : List (List Char)) (acc : List Char),
    List.foldl csvStep ⟨rows, cur, acc, .quoted, false⟩ (escapeQuotes f) =
      ⟨rows, cur, acc ++ f, .quoted, false⟩ := by
  induction f with
  | nil => intro rows cur acc; simp [escapeQuotes]
  | cons c cs ih =>
    intro rows cur acc
    by_cases h : c = '"'
    · subst h
      show List.foldl csvStep _ ('"' :: '"' :: escapeQuotes cs) = _
      rw [List.foldl_cons, List.foldl_cons]
      show List.foldl csvStep ⟨rows, cur, acc ++ ['"'], .quoted, false⟩ (escapeQuotes cs) = _
      rw [ih]
      simp
    · have hb : (c == '"') = false := beq_eq_false_iff_ne.mpr h
      have he : escapeQuotes (c :: cs) = c :: escapeQuotes cs := by
        simp [escapeQuotes, hb]
      have hstep : csvStep ⟨rows, cur, acc, .quoted, false⟩ c =
          ⟨rows, cur, acc ++ [c], .quoted, false⟩ := by
        simp [csvStep, hb]
      rw [he, List.foldl_cons, hstep, ih]
      simp

theorem unquoted_foldl (f : List Char) :
    ∀ (rows : List (List (List Char))) (cur : List (List Char)) (acc : List Char),
    (∀ c ∈ f, isCSVSpecial c = false) →
    List.foldl csvStep ⟨rows, cur, acc, .unquoted, false⟩ f =
      ⟨rows, cur, acc ++ f, .unquoted, false⟩ := by
  induction f with
  | nil => intro rows cur acc _; simp
  | cons c cs ih =>
    intro rows cur acc h
    obtain ⟨h1, h2, h3⟩ := notSpecial_parts c (h c (List.mem_cons_self c cs))
    have hstep : csvStep ⟨rows, cur, acc, .unquoted, false⟩ c =
        ⟨rows, cur, acc ++ [c], .unquoted, false⟩ := by
      simp [csvStep, h1, h3]
    rw [List.foldl_cons, hstep,
      ih rows cur (acc ++ [c]) (fun x hx => h x (List.mem_cons_of_mem c hx))]
    simp

theorem foldl_encodeField_comma (f : List Char) (rows : List (List (List Char)))
    (cur : List (List Char)) :
    List.foldl csvStep ⟨rows, cur, [], .startField, false⟩ (encodeField f ++ [',']) =
      ⟨rows, cur ++ [f], [], .startField, false⟩ := by
  by_cases hq : f.any isCSVSpecial
  · simp only [encodeField, hq, if_true]
    have hsh : ('"' :: (escapeQuotes f ++ ['"'])) ++ [','] =
        '"' :: (escapeQuotes f ++ ['"', ',']) := by simp
    rw [hsh, List.foldl_cons]
    show List.foldl csvStep ⟨rows, cur, [], .quoted, false⟩ (escapeQuotes f ++ ['"', ',']) = _
    rw [List.foldl_append, escapeQuotes_foldl]
    rfl
  · have hq' := any_special_false f hq
    simp only [encodeField, hq, Bool.false_eq_true, if_false]
    cases f with
    | nil => rfl
    | cons c cs =>
      obtain ⟨h1, h2, h3⟩ := notSpecial_parts c (hq' c (List.mem_cons_self c cs))
      have hstep : csvStep ⟨rows, cur, [], .startField, false⟩ c =
          ⟨rows, cur, [c], .unquoted, false⟩ := by
        simp [csvStep, h1, h2, h3]
      have hsh : (c :: cs) ++ [','] = c :: (cs ++ [',']) := by simp
      rw [hsh, List.foldl_cons, hstep, List.foldl_append,
        unquoted_foldl cs rows cur [c] (fun x hx => hq' x (List.mem_cons_of_mem c hx))]
      rfl

theorem foldl_encodeField_newline (f : List Char) (rows : List (List (List Char)))
    (cur : List (List Char)) :
    List.foldl csvStep ⟨rows, cur, [], .startField, false⟩ (encodeField f ++ ['\n']) =
      ⟨rows ++ [cur ++ [f]], [], [], .startField, false⟩ := by
  by_cases hq : f.any isCSVSpecial
  · simp only [encodeField, hq, if_true]
    have hsh : ('"' :: (escapeQuotes f ++ ['"'])) ++ ['\n'] =
        '"' :: (escapeQuotes f ++ ['"', '\n']) := by simp
    rw [hsh, List.foldl_cons]
    show List.foldl csvStep ⟨rows, cur, [], .quoted, false⟩ (escapeQuotes f ++ ['"', '\n']) = _
    rw [List.foldl_append, escapeQuotes_foldl]
    rfl
  · have hq' := any_special_false f hq
    simp only [encodeField, hq, Bool.false_eq_true, if_false]
    cases f with
    | nil => rfl
    | cons c cs =>
      obtain ⟨h1, h2, h3⟩ := notSpecial_parts c (hq' c (List.mem_cons_self c cs))
      have hstep : csvStep ⟨rows, cur, [], .startField, false⟩ c =
          ⟨rows, cur, [c], .unquoted, false⟩ := by
        simp [csvStep, h1, h2, h3]
      have hsh : (c :: cs) ++ ['\n'] = c :: (cs ++ ['\n']) := by simp
      rw [hsh, List.foldl_cons, hstep, List.foldl_append,
        unquoted_foldl cs rows cur [c] (fun x hx => hq' x (List.mem_cons_of_mem c hx))]
      rfl

theorem foldl_encodeRow (fields : List (List Char)) (hne : fields ≠ []) :
    ∀ (rows : List (List (List Char))) (cur : List (List Char)),
    List.foldl csvStep ⟨rows, cur, [], .startField, false⟩ (encodeRow fields) =
      ⟨rows ++ [cur ++ fields], [], [], .startField, false⟩ := by
  induction fields with
  | nil => exact absurd rfl hne
  | cons f fs ih =>
    intro rows cur
    cases fs with
    | nil => exact foldl_encodeField_newline f rows cur
    | cons g gs =>
      have hsh : encodeRow (f :: g :: gs) =
          (encodeField f ++ [',']) ++ encodeRow (g :: gs) :=
        (List.append_assoc (encodeField f) [','] (encodeRow (g :: gs))).symm
      rw [hsh, List.foldl_append, foldl_encodeField_comma,
        ih (List.cons_ne_nil g gs) rows (cur ++ [f])]
      simp

/-! ## Lemmas: shape of the store built by repeated `save_to_csv` -/

theorem saveAll_some (rs : List PlantRecord) :
    ∀ acc, List.foldl saveRecord (some acc) rs = some (acc ++ (rs.map rowText).flatten) := by
  induction rs with
  | nil => intro acc; simp
  | cons r rs ih =>
    intro acc
    show List.foldl saveRecord (some (acc ++ rowText r)) rs = _
    rw [ih]
    simp

theorem storeOf_shape (r : PlantRecord) (rs : List PlantRecord) :
    storeOf (r :: rs) =
      some (bomChar :: (csvHeaderLine ++ ((r :: rs).map rowText).flatten)) := by
  show List.foldl saveRecord (some (bomChar :: (csvHeaderLine ++ rowText r))) rs = _
  rw [saveAll_some]
  simp

theorem stripBOM_bom (x : List Char) : stripBOM (bomChar :: x) = x := by
  simp [stripBOM]

theorem rows_join_foldl (rls : List (List (List Char))) (h : ∀ x ∈ rls, x ≠ []) :
    ∀ rows0, List.foldl csvStep ⟨rows0, [], [], .startField, false⟩
      ((rls.map encodeRow).flatten) = ⟨rows0 ++ rls, [], [], .startField, false⟩ := by
  induction rls with
  | nil => intro rows0; simp
  | cons x xs ih =>
    intro rows0
    rw [List.map_cons, List.flatten_cons, List.foldl_append,
      foldl_encodeRow x (h x (List.mem_cons_self x xs)) rows0 []]
    show List.foldl csvStep ⟨rows0 ++ [x], [], [], .startField, false⟩ _ = _
    rw [ih (fun y hy => h y (List.mem_cons_of_mem x hy)) (rows0 ++ [x])]
    simp

theorem parse_store (recs : List PlantRecord) :
    parseCSV (csvHeaderLine ++ (recs.map rowText).flatten) =
      some ((dbColumns.map String.data) :: recs.map rowFields) := by
  unfold parseCSV
  rw [List.foldl_append]
  have hh : List.foldl csvStep csvInit csvHeaderLine =
      ⟨[dbColumns.map String.data], [], [], .startField, false⟩ := by
    have h4 : dbColumns.map String.data ≠ [] := by simp [dbColumns]
    have := foldl_encodeRow (dbColumns.map String.data) h4 [] []
    simpa [csvHeaderLine] using this
  rw [hh]
  have hmap : recs.map rowText = (recs.map rowFields).map encodeRow := by
    rw [List.map_map]
    rfl
  rw [hmap, rows_join_foldl (recs.map rowFields)
    (fun x hx => by
      obtain ⟨r, _, rfl⟩ := List.mem_map.mp hx
      simp [rowFields])]
  rfl

/-! ## Lemmas: `convertCell` on the columns the store produces -/

theorem plainText_parts (s : String) (h : plainText s = true) :
    isNaToken s = false ∧ isIntToken s = false ∧
    isFloatToken s = false ∧ isBoolToken s = false := by
  simp only [plainText, Bool.and_eq_true, Bool.not_eq_true'] at h
  exact ⟨h.1.1.1, h.1.1.2, h.1.2, h.2⟩

theorem safeRecord_parts (r : PlantRecord) (h : safeRecord r = true) :
    plainText r.timestamp = true ∧ plainText r.diagnosisText = true ∧
    r.humidity ≤ 100 ∧ 10 ≤ r.temperature ∧ r.temperature ≤ 40 := by
  simp only [safeRecord, Bool.and_eq_true, decide_eq_true_eq] at h
  exact ⟨h.1.1.1.1.1.1, h.1.1.1.1.1.2, h.1.1.2, h.1.2, h.2⟩

theorem natToken_facts : ∀ n < 101,
    isIntToken (toString n) = true ∧ intValue (toString n) = Int.ofNat n := by decide

theorem convertCell_str (col : List String) (s : String)
    (hw : ∃ t ∈ col, plainText t = true) (hsna : isNaToken s = false) :
    convertCell col s = .str s := by
  obtain ⟨t, ht, hpt⟩ := hw
  obtain ⟨hna, hint, hfl, hbool⟩ := plainText_parts t hpt
  have hA : col.all (fun u => isIntToken u) = false := by
    by_contra hcon
    rw [Bool.not_eq_false] at hcon
    exact absurd (List.all_eq_true.mp hcon t ht) (by simp [hint])
  have hB : col.all (fun u => isNaToken u || isFloatToken u || isIntToken u) = false := by
    by_contra hcon
    rw [Bool.not_eq_false] at hcon
    exact absurd (List.all_eq_true.mp hcon t ht) (by simp [hint, hna, hfl])
  have hC : col.all (fun u => isBoolToken u) = false := by
    by_contra hcon
    rw [Bool.not_eq_false] at hcon
    exact absurd (List.all_eq_true.mp hcon t ht) (by simp [hbool])
  simp [convertCell, hA, hB, hC, hsna]

theorem convertCell_int (col : List String) (s : String)
    (hall : col.all (fun u => isIntToken u) = true) :
    convertCell col s = .int (intValue s) := by
  simp [convertCell, hall]

/-! ## The store round trip -/

theorem read_store (recs : List PlantRecord)
    (hs : ∀ r ∈ recs, safeRecord r = true) :
    read_csv (bomChar :: (csvHeaderLine ++ (recs.map rowText).flatten)) =
      some ⟨dbColumns, recs.map toCells⟩ := by
  have hp : parseCSV (stripBOM (bomChar :: (csvHeaderLine ++ (recs.map rowText).flatten))) =
      some ((dbColumns.map String.data) :: recs.map rowFields) := by
    rw [stripBOM_bom]
    exact parse_store recs
  unfold read_csv
  rw [hp]
  have hfilter : (recs.map rowFields).filter (fun r => r ≠ [[]]) = recs.map rowFields := by
    rw [List.filter_eq_self]
    intro x hx
    obtain ⟨r, _, rfl⟩ := List.mem_map.mp hx
    simp [rowFields]
  have hstr : (recs.map rowFields).map (fun r => r.map String.mk) = recs.map strFields := by
    rw [List.map_map]
    rfl
  have hhdr : (dbColumns.map String.data).map String.mk = dbColumns := rfl
  simp only [hfilter, hstr, hhdr]
  have hlen : (recs.map strFields).all (fun r => r.length == dbColumns.length) = true := by
    rw [List.all_eq_true]
    intro x hx
    obtain ⟨r, _, rfl⟩ := List.mem_map.mp hx
    rfl
  rw [hlen, if_pos rfl]
  congr 1
  refine Frame.mk.injEq dbColumns _ dbColumns _ ▸ ?_
  simp only [Frame.mk.injEq, true_and]
  rw [List.map_map]
  apply List.map_congr_left
  intro r hr
  obtain ⟨hts, hdx, hhum, _, htmp⟩ := safeRecord_parts r (hs r hr)
  have hcol0 : (recs.map strFields).map (fun rr => rr.getD 0 "") =
      recs.map (fun x => x.timestamp) := by rw [List.map_map]; rfl
  have hcol1 : (recs.map strFields).map (fun rr => rr.getD 1 "") =
      recs.map (fun x => toString x.humidity) := by rw [List.map_map]; rfl
  have hcol2 : (recs.map strFields).map (fun rr => rr.getD 2 "") =
      recs.map (fun x => toString x.temperature) := by rw [List.map_map]; rfl
  have hcol3 : (recs.map strFields).map (fun rr => rr.getD 3 "") =
      recs.map (fun x => x.diagnosisText) := by rw [List.map_map]; rfl
  show [convertCell ((recs.map strFields).map (fun rr => rr.getD 0 "")) r.timestamp,
        convertCell ((recs.map strFields).map (fun rr => rr.getD 1 "")) (toString r.humidity),
        convertCell ((recs.map strFields).map (fun rr => rr.getD 2 "")) (toString r.temperature),
        convertCell ((recs.map strFields).map (fun rr => rr.getD 3 "")) r.diagnosisText] =
      toCells r
  rw [hcol0, hcol1, hcol2, hcol3]
  have hc0 : convertCell (recs.map (fun x => x.timestamp)) r.timestamp = .str r.timestamp := by
    refine convertCell_str _ _ ⟨r.timestamp, List.mem_map_of_mem _ hr, hts⟩ ?_
    exact (plainText_parts _ hts).1
  have hallhum : (recs.map (fun x => toString x.humidity)).all
      (fun u => isIntToken u) = true := by
    rw [List.all_eq_true]
    intro x hx
    obtain ⟨q, hq, rfl⟩ := List.mem_map.mp hx
    exact (natToken_facts q.humidity
      (by have := (safeRecord_parts q (hs q hq)).2.2.1; omega)).1
  have halltmp : (recs.map (fun x => toString x.temperature)).all
      (fun u => isIntToken u) = true := by
    rw [List.all_eq_true]
    intro x hx
    obtain ⟨q, hq, rfl⟩ := List.mem_map.mp hx
    exact (natToken_facts q.temperature
      (by have := (safeRecord_parts q (hs q hq)).2.2.2.2; omega)).1
  have hc1 : convertCell (recs.map (fun x => toString x.humidity)) (toString r.humidity) =
      .int (Int.ofNat r.humidity) := by
    rw [convertCell_int _ _ hallhum, (natToken_facts r.humidity (by omega)).2]
  have hc2 : convertCell (recs.map (fun x => toString x.temperature)) (toString r.temperature) =
      .int (Int.ofNat r.temperature) := by
    rw [convertCell_int _ _ halltmp, (natToken_facts r.temperature (by omega)).2]
  have hc3 : convertCell (recs.map (fun x => x.diagnosisText)) r.diagnosisText =
      .str r.diagnosisText := by
    refine convertCell_str _ _ ⟨r.diagnosisText, List.mem_map_of_mem _ hr, hdx⟩ ?_
    exact (plainText_parts _ hdx).1
  rw [hc0, hc1, hc2, hc3]
  rfl

theorem load_storeOf (recs : List PlantRecord)
    (hs : ∀ r ∈ recs, safeRecord r = true) (hne : recs ≠ []) :
    load_history (storeOf recs) = .frame ⟨dbColumns, recs.map toCells⟩ := by
  cases recs with
  | nil => exact absurd rfl hne
  | cons r rs =>
    rw [storeOf_shape]
    show (match read_csv (bomChar :: (csvHeaderLine ++ ((r :: rs).map rowText).flatten)) with
          | none => LoadResult.raised
          | some f => LoadResult.frame f) = _
    rw [read_store (r :: rs) hs]

/-! ## Lemmas about the handler -/

theorem handler_error (humidity temperature : Nat) (st : SessionState)
    (file : Option (List Char)) (env : HandlerEnv) (e : String)
    (h : env.inference = .error e) :
    handler humidity temperature st file env =
      ⟨⟨st.history, (alertBlock humidity st.last_alert_time env).last_alert_time⟩, file,
       (alertBlock humidity st.last_alert_time env).events ++
         [.errorMsg ("發生錯誤: " ++ e)],
       (alertBlock humidity st.last_alert_time env).request,
       (alertBlock humidity st.last_alert_time env).send_called,
       if env.image then PromptKind.withImage else PromptKind.withoutImage⟩ := by
  unfold handler
  rw [h]

theorem handler_ok (humidity temperature : Nat) (st : SessionState)
    (file : Option (List Char)) (env : HandlerEnv) (text : String)
    (h : env.inference = .ok text) :
    handler humidity temperature st file env =
      ⟨⟨st.history ++ [⟨"ai", text⟩],
        (alertBlock humidity st.last_alert_time env).last_alert_time⟩,
       save_to_csv file env.nowStr humidity temperature text,
       (alertBlock humidity st.last_alert_time env).events ++
         [.success "✅ 診斷完成！資料已紀錄。"],
       (alertBlock humidity st.last_alert_time env).request,
       (alertBlock humidity st.last_alert_time env).send_called,
       if env.image then PromptKind.withImage else PromptKind.withoutImage⟩ := by
  unfold handler
  rw [h]

theorem alertBlock_skip (humidity : Nat) (last : ℚ) (env : HandlerEnv)
    (h : ¬ humidity < 20) :
    alertBlock humidity last env = ⟨last, [], none, false⟩ := by
  simp [alertBlock, h]

theorem alertBlock_cooldown (humidity : Nat) (last : ℚ) (env : HandlerEnv)
    (h1 : humidity < 20) (h2 : env.now - last ≤ 60) :
    alertBlock humidity last env = ⟨last, [.warning cooldownNotice], none, false⟩ := by
  simp [alertBlock, h1, not_lt.mpr h2]

theorem alertBlock_attempt (humidity : Nat) (last : ℚ) (env : HandlerEnv)
    (h1 : humidity < 20) (h2 : env.now - last > 60) :
    (alertBlock humidity last env).last_alert_time = env.now ∧
    (alertBlock humidity last env).send_called = true := by
  simp [alertBlock, h1, h2]

theorem storeOf_concat (recs : List PlantRecord) (r : PlantRecord) :
    storeOf (recs ++ [r]) = saveRecord (storeOf recs) r := by
  simp only [storeOf, List.foldl_append]
  rfl

/-! ## Claim theorems -/

/-- C5: when the backing store file does not exist, loading the history
returns an empty sequence of records (the caller renders no table rows),
never an error: `load_history` answers with the no-file result along the
existence-check branch, not by raising. -/
theorem c5_missing_store_empty :
    load_history Option.none = LoadResult.noFile ∧
    loadedRecords (load_history Option.none) = some [] :=
  ⟨rfl, rfl⟩

/-- C6: for every reading with humidity ≥ 20, every cooldown state and
every current time, the alert check returns NotTriggered, calls the
broadcast function on no request, and leaves `last_alert_time` unchanged
through the whole button press. -/
theorem c6_notTriggered (humidity temperature : Nat) (st : SessionState)
    (file : Option (List Char)) (env : HandlerEnv) (h : 20 ≤ humidity) :
    maybeAlertOutcome humidity st.last_alert_time env = .notTriggered ∧
    (handler humidity temperature st file env).state.last_alert_time =
      st.last_alert_time ∧
    (handler humidity temperature st file env).send_called = false ∧
    (handler humidity temperature st file env).request = none := by
  have hlt : ¬ humidity < 20 := by omega
  have ha := alertBlock_skip humidity st.last_alert_time env hlt
  refine ⟨by simp [maybeAlertOutcome, hlt], ?_, ?_, ?_⟩ <;>
    cases hinf : env.inference with
    | error e => rw [handler_error _ _ _ _ _ _ hinf, ha]
    | ok text => rw [handler_ok _ _ _ _ _ _ hinf, ha]

/-- C6 witness: humidity 50 with an in-cooldown state and a working
gateway still yields NotTriggered with no send and unchanged state. -/
theorem c6_witness :
    maybeAlertOutcome 50 (⟨[], 3⟩ : SessionState).last_alert_time
      ⟨100, "2025-01-01 00:00:00", some "T", .resp 200 "", .ok "ok", false⟩ =
      .notTriggered ∧
    (handler 50 28 ⟨[], 3⟩ none
      ⟨100, "2025-01-01 00:00:00", some "T", .resp 200 "", .ok "ok", false⟩).state.last_alert_time =
      (⟨[], 3⟩ : SessionState).last_alert_time ∧
    (handler 50 28 ⟨[], 3⟩ none
      ⟨100, "2025-01-01 00:00:00", some "T", .resp 200 "", .ok "ok", false⟩).send_called = false ∧
    (handler 50 28 ⟨[], 3⟩ none
      ⟨100, "2025-01-01 00:00:00", some "T", .resp 200 "", .ok "ok", false⟩).request = none :=
  c6_notTriggered 50 28 ⟨[], 3⟩ none
    ⟨100, "2025-01-01 00:00:00", some "T", .resp 200 "", .ok "ok", false⟩ (by decide)

/-- C7: for humidity < 20 within the 60-second window, the alert check
returns SuppressedByCooldown, sends nothing, leaves `last_alert_time`
unchanged, and the "cooldown active" warning is among the messages shown
to the user. -/
theorem c7_suppressed (humidity temperature : Nat) (st : SessionState)
    (file : Option (List Char)) (env : HandlerEnv)
    (h1 : humidity < 20) (h2 : env.now - st.last_alert_time ≤ 60) :
    maybeAlertOutcome humidity st.last_alert_time env = .suppressedByCooldown ∧
    (handler humidity temperature st file env).state.last_alert_time =
      st.last_alert_time ∧
    (handler humidity temperature st file env).send_called = false ∧
    (handler humidity temperature st file env).request = none ∧
    UIEvent.warning cooldownNotice ∈ (handler humidity temperature st file env).events := by
  have ha := alertBlock_cooldown humidity st.last_alert_time env h1 h2
  refine ⟨by simp [maybeAlertOutcome, h1, not_lt.mpr h2], ?_, ?_, ?_, ?_⟩ <;>
    cases hinf : env.inference with
    | error e => simp [handler_error _ _ _ _ _ _ hinf, ha]
    | ok text => simp [handler_ok _ _ _ _ _ _ hinf, ha]

/-- C7 witness: humidity 15 five seconds after an alert at time 40. -/
theorem c7_witness :
    maybeAlertOutcome 15 (⟨[], 40⟩ : SessionState).last_alert_time
      ⟨45, "2025-01-01 00:00:00", some "T", .resp 200 "", .ok "ok", false⟩ =
      .suppressedByCooldown ∧
    (handler 15 28 ⟨[], 40⟩ none
      ⟨45, "2025-01-01 00:00:00", some "T", .resp 200 "", .ok "ok", false⟩).state.last_alert_time =
      (⟨[], 40⟩ : SessionState).last_alert_time ∧
    (handler 15 28 ⟨[], 40⟩ none
      ⟨45, "2025-01-01 00:00:00", some "T", .resp 200 "", .ok "ok", false⟩).send_called = false ∧
    (handler 15 28 ⟨[], 40⟩ none
      ⟨45, "2025-01-01 00:00:00", some "T", .resp 200 "", .ok "ok", false⟩).request = none ∧
    UIEvent.warning cooldownNotice ∈ (handler 15 28 ⟨[], 40⟩ none
      ⟨45, "2025-01-01 00:00:00", some "T", .resp 200 "", .ok "ok", false⟩).events :=
  c7_suppressed 15 28 ⟨[], 40⟩ none
    ⟨45, "2025-01-01 00:00:00", some "T", .resp 200 "", .ok "ok", false⟩
    (by decide) (by norm_num)

/-- C10 (implicit): `send_line_broadcast` returns the Python `None` in
every branch — success, non-success status, transport exception and
missing credentials all return normally, so the caller cannot tell a
successful send from a failed one from the returned value; and with no
token configured no HTTP request is attempted at all. -/
theorem c10_send_returns_none (token : Option String) (post : PostResult)
    (msg : String) (sticker : Bool) :
    (send_line_broadcast token post msg sticker).2 = Except.ok () ∧
    (send_line_broadcast none post msg sticker).1.request = none := by
  constructor
  · cases token with
    | none => rfl
    | some t =>
      cases post with
      | resp status body =>
        by_cases h : status = 200 <;> simp [send_line_broadcast, h]
      | raises e => rfl
  · rfl

/-- C1 counterexample: humidity 15, last alert never (0), time 100, a
configured token and a gateway answering 401 — the attempt fails
(SendFailed), the inference even errors, and still `last_alert_time`
moves from 0 to 100: line 148 updates it unconditionally after the send. -/
theorem c1_counterexample :
    maybeAlertOutcome 15 0
      ⟨100, "t", some "TOKEN", .resp 401 "Unauthorized", .error "down", false⟩ =
      .sendFailed "LINE 傳送失敗: 401 - Unauthorized" ∧
    (handler 15 28 ⟨[], 0⟩ none
      ⟨100, "t", some "TOKEN", .resp 401 "Unauthorized", .error "down", false⟩).state.last_alert_time = 100 ∧
    (0 : ℚ) ≠ 100 := by
  have h2 : (100 : ℚ) - 0 > 60 := by norm_num
  refine ⟨?_, ?_, by norm_num⟩
  · norm_num [maybeAlertOutcome, h2]
    rfl
  · rw [handler_error 15 28 ⟨[], 0⟩ none
      ⟨100, "t", some "TOKEN", .resp 401 "Unauthorized", .error "down", false⟩ "down" rfl]
    exact (alertBlock_attempt 15 0 _ (by decide) h2).1

/-- C1 amended: on every alert attempt (humidity < 20 and elapsed time
over 60 seconds), `last_alert_time` is set to the current time whether
the gateway send succeeded or failed — the code updates the cooldown
unconditionally after calling the broadcast function. -/
theorem c1_attempt_updates_time (humidity temperature : Nat) (st : SessionState)
    (file : Option (List Char)) (env : HandlerEnv)
    (h1 : humidity < 20) (h2 : env.now - st.last_alert_time > 60) :
    (handler humidity temperature st file env).state.last_alert_time = env.now ∧
    (handler humidity temperature st file env).send_called = true := by
  have ha := alertBlock_attempt humidity st.last_alert_time env h1 h2
  constructor <;>
    cases hinf : env.inference with
    | error e => simp [handler_error _ _ _ _ _ _ hinf, ha.1, ha.2]
    | ok text => simp [handler_ok _ _ _ _ _ _ hinf, ha.1, ha.2]

/-- C1 witness: a failing gateway (401) on an eligible attempt still ends
with `last_alert_time = 100` and the broadcast function called. -/
theorem c1_witness :
    (handler 15 28 ⟨[], 0⟩ none
      ⟨100, "t", some "TOKEN", .resp 401 "Unauthorized", .ok "ok", false⟩).state.last_alert_time =
      (⟨100, "t", some "TOKEN", .resp 401 "Unauthorized", .ok "ok", false⟩ : HandlerEnv).now ∧
    (handler 15 28 ⟨[], 0⟩ none
      ⟨100, "t", some "TOKEN", .resp 401 "Unauthorized", .ok "ok", false⟩).send_called = true :=
  c1_attempt_updates_time 15 28 ⟨[], 0⟩ none
    ⟨100, "t", some "TOKEN", .resp 401 "Unauthorized", .ok "ok", false⟩
    (by decide) (by norm_num)

/-- C2 counterexample: the inference call fails (`.error "down"`), yet
because the alert block ran first (humidity 15, never alerted, time 100),
`last_alert_time` after the action is 100, not its prior value 0. -/
theorem c2_counterexample :
    (⟨100, "t", none, .resp 200 "", .error "down", false⟩ : HandlerEnv).inference =
      .error "down" ∧
    (handler 15 28 ⟨[], 0⟩ none
      ⟨100, "t", none, .resp 200 "", .error "down", false⟩).state.last_alert_time = 100 ∧
    (100 : ℚ) ≠ 0 := by
  have h2 : (100 : ℚ) - 0 > 60 := by norm_num
  refine ⟨rfl, ?_, by norm_num⟩
  rw [handler_error 15 28 ⟨[], 0⟩ none
    ⟨100, "t", none, .resp 200 "", .error "down", false⟩ "down" rfl]
  exact (alertBlock_attempt 15 0 _ (by decide) h2).1

/-- C2 amended: when the inference call fails, no history row is written
and the chat history is unchanged; `last_alert_time` is unchanged provided
the action did not trigger an alert attempt (humidity ≥ 20 or within the
cooldown window) — if it did trigger one, the timestamp was already set to
the current time before the inference call, because the alert block runs
first. -/
theorem c2_inference_fail_state (humidity temperature : Nat) (st : SessionState)
    (file : Option (List Char)) (env : HandlerEnv) (e : String)
    (h : env.inference = .error e) :
    (handler humidity temperature st file env).file = file ∧
    (handler humidity temperature st file env).state.history = st.history ∧
    ((¬ humidity < 20 ∨ ¬ env.now - st.last_alert_time > 60) →
      (handler humidity temperature st file env).state.last_alert_time =
        st.last_alert_time) ∧
    ((humidity < 20 ∧ env.now - st.last_alert_time > 60) →
      (handler humidity temperature st file env).state.last_alert_time = env.now) := by
  rw [handler_error _ _ _ _ _ _ h]
  refine ⟨rfl, rfl, ?_, ?_⟩
  · rintro (hc | hc)
    · simp [alertBlock_skip humidity st.last_alert_time env hc]
    · by_cases hl : humidity < 20
      · simp [alertBlock_cooldown humidity st.last_alert_time env hl (not_lt.mp hc)]
      · simp [alertBlock_skip humidity st.last_alert_time env hl]
  · rintro ⟨hl, hg⟩
    exact (alertBlock_attempt humidity st.last_alert_time env hl hg).1

/-- C2 witness: humidity 50 (no alert attempt) with a failing inference
leaves the file, the chat history and the cooldown timestamp unchanged. -/
theorem c2_witness :
    (handler 50 28 ⟨[], 7⟩ none
      ⟨100, "t", none, .resp 200 "", .error "down", false⟩).file = none ∧
    (handler 50 28 ⟨[], 7⟩ none
      ⟨100, "t", none, .resp 200 "", .error "down", false⟩).state.history =
      (⟨[], 7⟩ : SessionState).history ∧
    ((¬ 50 < 20 ∨ ¬ (⟨100, "t", none, .resp 200 "", .error "down", false⟩ : HandlerEnv).now -
        (⟨[], 7⟩ : SessionState).last_alert_time > 60) →
      (handler 50 28 ⟨[], 7⟩ none
        ⟨100, "t", none, .resp 200 "", .error "down", false⟩).state.last_alert_time =
        (⟨[], 7⟩ : SessionState).last_alert_time) ∧
    ((50 < 20 ∧ (⟨100, "t", none, .resp 200 "", .error "down", false⟩ : HandlerEnv).now -
        (⟨[], 7⟩ : SessionState).last_alert_time > 60) →
      (handler 50 28 ⟨[], 7⟩ none
        ⟨100, "t", none, .resp 200 "", .error "down", false⟩).state.last_alert_time =
        (⟨100, "t", none, .resp 200 "", .error "down", false⟩ : HandlerEnv).now) :=
  c2_inference_fail_state 50 28 ⟨[], 7⟩ none
    ⟨100, "t", none, .resp 200 "", .error "down", false⟩ "down" rfl

/-- C3: when the inference call fails, no history row is appended for the
action (the file is unchanged — `save_to_csv` is only reached after a
successful `generate_content`), the chat history is unchanged, and the
error is surfaced to the user via `st.error`. -/
theorem c3_inference_fail_no_record (humidity temperature : Nat) (st : SessionState)
    (file : Option (List Char)) (env : HandlerEnv) (e : String)
    (h : env.inference = .error e) :
    (handler humidity temperature st file env).file = file ∧
    (handler humidity temperature st file env).state.history = st.history ∧
    UIEvent.errorMsg ("發生錯誤: " ++ e) ∈
      (handler humidity temperature st file env).events := by
  rw [handler_error _ _ _ _ _ _ h]
  exact ⟨rfl, rfl, by simp⟩

/-- C3 witness: a failing inference on a fresh session leaves no file and
shows the error message. -/
theorem c3_witness :
    (handler 15 28 ⟨[], 0⟩ none
      ⟨100, "t", none, .resp 200 "", .error "boom", false⟩).file = none ∧
    (handler 15 28 ⟨[], 0⟩ none
      ⟨100, "t", none, .resp 200 "", .error "boom", false⟩).state.history =
      (⟨[], 0⟩ : SessionState).history ∧
    UIEvent.errorMsg ("發生錯誤: " ++ "boom") ∈
      (handler 15 28 ⟨[], 0⟩ none
        ⟨100, "t", none, .resp 200 "", .error "boom", false⟩).events :=
  c3_inference_fail_no_record 15 28 ⟨[], 0⟩ none
    ⟨100, "t", none, .resp 200 "", .error "boom", false⟩ "boom" rfl

set_option maxRecDepth 40000 in
/-- C4 counterexample: appending the single record whose diagnosis text is
the string "None" and loading the store back does not return that record:
`read_csv` treats "None" as a default missing-value token and loads NaN in
its place, so the diagnosis field is not preserved. -/
theorem c4_counterexample :
    loadedRecords (load_history (storeOf [⟨"2025-01-01 00:00:00", 15, 28, "None"⟩])) =
      some [[.str "2025-01-01 00:00:00", .int 15, .int 28, .nan]] ∧
    loadedRecords (load_history (storeOf [⟨"2025-01-01 00:00:00", 15, 28, "None"⟩])) ≠
      some ([(⟨"2025-01-01 00:00:00", 15, 28, "None"⟩ : PlantRecord)].map toCells) := by
  constructor
  · decide
  · decide

/-- C4 amended: appending records one by one and loading them all back
returns exactly that sequence, in append order, with every field
(timestamp, humidity, temperature, diagnosis text including non-ASCII,
commas, quotes and embedded newlines) preserved losslessly — provided the
text fields are not strings the loader rewrites, namely pandas
missing-value tokens (such as "None" or the empty string), bare
integer/float/boolean literals, or text with a bare carriage return, and
the numeric fields are within the slider ranges. -/
theorem c4_roundTrip (recs : List PlantRecord)
    (hs : ∀ r ∈ recs, safeRecord r = true) :
    loadedRecords (load_history (storeOf recs)) = some (recs.map toCells) := by
  cases recs with
  | nil => rfl
  | cons r rs =>
    rw [load_storeOf (r :: rs) hs (List.cons_ne_nil r rs)]
    rfl

/-- C4 witness: two records with CJK text, a comma, doubled quotes and an
embedded newline in the diagnosis round-trip exactly. -/
theorem c4_witness :
    (∀ r ∈ ([⟨"2025-01-01 00:00:00", 15, 28, "葉子乾枯，快「澆水」！"⟩,
             ⟨"2025-01-01 00:01:00", 99, 40, "多行\n回應, 含逗號與 \"引號\""⟩] :
       List PlantRecord), safeRecord r = true) ∧
    loadedRecords (load_history (storeOf
      [⟨"2025-01-01 00:00:00", 15, 28, "葉子乾枯，快「澆水」！"⟩,
       ⟨"2025-01-01 00:01:00", 99, 40, "多行\n回應, 含逗號與 \"引號\""⟩])) =
      some (([⟨"2025-01-01 00:00:00", 15, 28, "葉子乾枯，快「澆水」！"⟩,
              ⟨"2025-01-01 00:01:00", 99, 40, "多行\n回應, 含逗號與 \"引號\""⟩] :
        List PlantRecord).map toCells) :=
  ⟨by decide, c4_roundTrip _ (by decide)⟩

/-- C8: alert suppression does not block diagnosis or logging — with
humidity < 20 inside the cooldown window and a successful inference, the
outcome is SuppressedByCooldown and no send happens, yet the response is
appended to the chat history and a history row for this action is
appended to the store (the store then loads as the old records plus the
new one). -/
theorem c8_suppression_not_blocking (recs : List PlantRecord)
    (humidity temperature : Nat) (st : SessionState) (env : HandlerEnv)
    (text : String)
    (hs : ∀ r ∈ recs, safeRecord r = true)
    (hnew : safeRecord ⟨env.nowStr, humidity, temperature, text⟩ = true)
    (h1 : humidity < 20) (h2 : env.now - st.last_alert_time ≤ 60)
    (hinf : env.inference = .ok text) :
    maybeAlertOutcome humidity st.last_alert_time env = .suppressedByCooldown ∧
    (handler humidity temperature st (storeOf recs) env).send_called = false ∧
    (handler humidity temperature st (storeOf recs) env).state.history =
      st.history ++ [⟨"ai", text⟩] ∧
    loadedRecords (load_history
        ((handler humidity temperature st (storeOf recs) env).file)) =
      some ((recs ++ [(⟨env.nowStr, humidity, temperature, text⟩ : PlantRecord)]).map
        toCells) := by
  have ha := alertBlock_cooldown humidity st.last_alert_time env h1 h2
  refine ⟨by simp [maybeAlertOutcome, h1, not_lt.mpr h2], ?_, ?_, ?_⟩
  · simp [handler_ok _ _ _ _ _ _ hinf, ha]
  · simp [handler_ok _ _ _ _ _ _ hinf, ha]
  · have hfile : (handler humidity temperature st (storeOf recs) env).file =
        storeOf (recs ++ [(⟨env.nowStr, humidity, temperature, text⟩ : PlantRecord)]) := by
      rw [handler_ok _ _ _ _ _ _ hinf, storeOf_concat]
      rfl
    rw [hfile]
    have hs' : ∀ r ∈ recs ++ [(⟨env.nowStr, humidity, temperature, text⟩ : PlantRecord)],
        safeRecord r = true := by
      intro x hx
      rcases List.mem_append.mp hx with hmem | hmem
      · exact hs x hmem
      · rw [List.mem_singleton.mp hmem]
        exact hnew
    rw [load_storeOf _ hs' (by simp)]
    rfl

/-- C8 witness: an action 5 seconds after an alert (time 45, last 40),
humidity 15, with a successful inference, appends a second record to a
store holding one record while being suppressed by the cooldown. -/
theorem c8_witness :
    maybeAlertOutcome 15 (⟨[], 40⟩ : SessionState).last_alert_time
      ⟨45, "2025-01-01 00:01:00", some "T", .resp 200 "", .ok "請快澆水！", false⟩ =
      .suppressedByCooldown ∧
    (handler 15 28 ⟨[], 40⟩
      (storeOf [⟨"2025-01-01 00:00:00", 15, 28, "葉子快乾了"⟩])
      ⟨45, "2025-01-01 00:01:00", some "T", .resp 200 "", .ok "請快澆水！", false⟩).send_called = false ∧
    (handler 15 28 ⟨[], 40⟩
      (storeOf [⟨"2025-01-01 00:00:00", 15, 28, "葉子快乾了"⟩])
      ⟨45, "2025-01-01 00:01:00", some "T", .resp 200 "", .ok "請快澆水！", false⟩).state.history =
      (⟨[], 40⟩ : SessionState).history ++ [⟨"ai", "請快澆水！"⟩] ∧
    loadedRecords (load_history
        ((handler 15 28 ⟨[], 40⟩
          (storeOf [⟨"2025-01-01 00:00:00", 15, 28, "葉子快乾了"⟩])
          ⟨45, "2025-01-01 00:01:00", some "T", .resp 200 "", .ok "請快澆水！", false⟩).file)) =
      some ((([⟨"2025-01-01 00:00:00", 15, 28, "葉子快乾了"⟩] : List PlantRecord) ++
        [(⟨(⟨45, "2025-01-01 00:01:00", some "T", .resp 200 "", .ok "請快澆水！",
            false⟩ : HandlerEnv).nowStr, 15, 28, "請快澆水！"⟩ : PlantRecord)]).map toCells) :=
  c8_suppression_not_blocking
    ([⟨"2025-01-01 00:00:00", 15, 28, "葉子快乾了"⟩] : List PlantRecord)
    15 28 (⟨[], 40⟩ : SessionState)
    (⟨45, "2025-01-01 00:01:00", some "T", .resp 200 "", .ok "請快澆水！",
      false⟩ : HandlerEnv)
    "請快澆水！" (by decide) (by decide) (by decide) (by norm_num) rfl

/-- C9: the most-recent view is derived from the full load — on a store of
appended records it shows `(loadAll).reverse.take 5`, which equals the
last five appended records in reverse-chronological order
(`List.rtake 5` of the loaded sequence, reversed), with n fixed at 5. -/
theorem c9_mostRecent (recs : List PlantRecord)
    (hs : ∀ r ∈ recs, safeRecord r = true) (hne : recs ≠ []) :
    displayedTable (storeOf recs) = some ((recs.map toCells).reverse.take 5) ∧
    displayedTable (storeOf recs) = some (((recs.map toCells).rtake 5).reverse) := by
  have hd : displayedTable (storeOf recs) = some ((recs.map toCells).reverse.take 5) := by
    unfold displayedTable
    rw [load_storeOf recs hs hne]
  refine ⟨hd, ?_⟩
  rw [hd, List.rtake_eq_reverse_take_reverse, List.reverse_reverse]

/-- C9 witness: six appended records display as the last five, most recent
first. -/
theorem c9_witness :
    displayedTable (storeOf ((List.range 6).map
        (fun i => ⟨"2025-01-01 00:0" ++ toString i ++ ":00", 30 + i, 28,
          "紀錄 第" ++ toString i ++ "筆"⟩))) =
      some ((((List.range 6).map
        (fun i => (⟨"2025-01-01 00:0" ++ toString i ++ ":00", 30 + i, 28,
          "紀錄 第" ++ toString i ++ "筆"⟩ : PlantRecord))).map toCells).reverse.take 5) ∧
    displayedTable (storeOf ((List.range 6).map
        (fun i => ⟨"2025-01-01 00:0" ++ toString i ++ ":00", 30 + i, 28,
          "紀錄 第" ++ toString i ++ "筆"⟩))) =
      some (((((List.range 6).map
        (fun i => (⟨"2025-01-01 00:0" ++ toString i ++ ":00", 30 + i, 28,
          "紀錄 第" ++ toString i ++ "筆"⟩ : PlantRecord))).map toCells).rtake 5).reverse) :=
  c9_mostRecent _ (by decide) (by decide)

end GreenFinger
